import Mathlib

/-!
ClassCom backend — shallow embedding and verification.

A shallow embedding of the ClassCom classroom-coordination backend
(`src/main.py`, `src/schemas.py`): the document store is an in-memory
record of collections, each collection a list of `(id, document)` pairs,
and every HTTP handler of the `/api` surface is a Lean function from the
optional store handle and the request payload to a response, with
`HTTPException` rendered as `Except HErr`.

The store adapter (`database.py`, imported by `main.py` as `db`,
`create_document`, `get_documents`) is not among the sources.
Modelled from the spec: `insert(collection, document) -> id` appends the
document to the named collection under a fresh store-generated identifier
(here the counter `nextId`), `find_one` returns the first matching
document, `find_many`/`get_documents` returns the collection's documents,
`update_one`/`delete_one` act on the first match and report the
matched/deleted count, and identifiers are exposed as the public `id`.
Identifiers are modelled as `Nat` (opaque strings in the real store);
the `oid` string-to-ObjectId parse is therefore implicit, and handlers
receive ids already parsed.  Wall-clock timestamps are abstracted as
`Nat` values passed in by the caller where the code calls
`datetime.now`.
-/

set_option autoImplicit false

namespace ClassCom

/-- An `HTTPException(status_code, detail)` as raised by the handlers. -/
structure HErr where
  status : Nat
  detail : String
  deriving Repr, DecidableEq

/-- Schema `Student` (`schemas.py`): a document of the `student`
collection.  Timestamps are abstracted as `Nat`. -/
structure Student where
  roll_number : String
  name : Option String
  is_admin : Bool
  is_active : Bool
  notifications_read_at : Option Nat := none
  deriving Repr, DecidableEq

/-- Schema `Subject` (`schemas.py`): a document of the `subject`
collection. -/
structure Subject where
  code : String
  acronym : String
  title : String
  syllabus : Option (List String)
  deriving Repr, DecidableEq

/-- A document of the `presentation` collection.  Documents created via
`POST /api/admin/presentations` carry no `status` or `updated_at` key
(absent from `PresentationCreate.model_dump()`), so both are `Option`s:
`none` models an absent key, matching the handlers' `doc.get("status")`
access. -/
structure Presentation where
  subject_code : String
  subject_acronym : String
  topic : String
  assigned_to : Option String
  due_date : Option Nat
  status : Option String
  submission_link : Option String
  updated_at : Option Nat := none
  deriving Repr, DecidableEq

/-- Schema `Message` (`schemas.py`): a document of the `message`
collection. -/
structure Message where
  type : String
  title : String
  body : String
  created_by : Option String
  deriving Repr, DecidableEq

/-- Schema `Meta` (`schemas.py`): a key/value flag document of the
`meta` collection. -/
structure Meta where
  key : String
  value : String
  deriving Repr, DecidableEq

/-- The document store: one list of `(id, document)` pairs per collection,
in insertion order, plus the next fresh identifier.  Modelled from the
spec: the adapter in `database.py` generates an opaque unique id per
inserted document; here ids are drawn from the monotone counter
`nextId`. -/
structure DB where
  student : List (Nat × Student)
  subject : List (Nat × Subject)
  presentation : List (Nat × Presentation)
  message : List (Nat × Message)
  meta : List (Nat × Meta)
  nextId : Nat
  deriving Repr, DecidableEq

/-- The empty store. -/
def DB.empty : DB := ⟨[], [], [], [], [], 0⟩

/-- Whitespace as removed by Python `str.strip()` (the ASCII cases). -/
def isSpaceChar (c : Char) : Bool :=
  c == ' ' || c == '\t' || c == '\n' || c == '\r'

/-- Python `str.strip()`: drop leading and trailing whitespace. -/
def pyStrip (s : String) : String :=
  ⟨((s.data.dropWhile isSpaceChar).reverse.dropWhile isSpaceChar).reverse⟩

/-- Python `str.upper()`: uppercase every character. -/
def pyUpper (s : String) : String := ⟨s.data.map Char.toUpper⟩

/-- Roll-number normalization `payload.roll_number.strip().upper()`,
applied by `login`, `my_presentations`, `list_presentations` and
`assign_topic`. -/
def normRoll (s : String) : String := pyUpper (pyStrip s)

/-- The 503 error raised by `require_db()` when `db is None`. -/
def storeUnavailable : HErr :=
  ⟨503, "Database not configured. Please set DATABASE_URL and DATABASE_NAME."⟩

/-! ## Request payloads (`main.py` pydantic models) -/

/-- Request model `LoginRequest`. -/
structure LoginRequest where
  roll_number : String
  password : Option String := none
  deriving Repr, DecidableEq

/-- Request model `SubjectCreate` (`syllabus` defaults to `[]`). -/
structure SubjectCreate where
  code : String
  acronym : String
  title : String
  syllabus : Option (List String) := some []
  deriving Repr, DecidableEq

/-- Request model `PresentationCreate`.  Note: no `status` field. -/
structure PresentationCreate where
  subject_code : String
  subject_acronym : String
  topic : String
  assigned_to : Option String := none
  due_date : Option Nat := none
  submission_link : Option String := none
  deriving Repr, DecidableEq

/-- Request model `AssignTopicRequest`; the `presentation_id` string is
modelled as the parsed id. -/
structure AssignTopicRequest where
  presentation_id : Nat
  roll_number : String
  deriving Repr, DecidableEq

/-- Request model `MessageCreate` (`type` defaults to `"message"`). -/
structure MessageCreate where
  type : String := "message"
  title : String
  body : String
  created_by : Option String := none
  deriving Repr, DecidableEq

/-! ## Responses -/

/-- Response of `POST /api/login`. -/
structure LoginResponse where
  roll_number : String
  name : Option String
  role : String
  is_admin : Bool
  deriving Repr, DecidableEq

/-- Response of `GET /api/presentations/my`. -/
structure MyPresentations where
  upcoming : List (Nat × Presentation)
  completed : List (Nat × Presentation)
  deriving Repr, DecidableEq

/-- Response of `POST /api/admin/sync`: `synced` always present, `message`
only on the `db is None` and already-synced paths. -/
structure SyncResponse where
  synced : Bool
  message : Option String := none
  deriving Repr, DecidableEq

/-- Response of `DELETE /api/admin/messages/...`. -/
structure DeleteResponse where
  deleted : Bool
  deriving Repr, DecidableEq

/-! ## Handlers (`main.py`)

Mutating handlers return the post-state together with the response; an
`Except.error` response leaves the store as it was (in the source every
`HTTPException` is raised before any write of the same call — in `login`
the only post-write path assigns `is_admin=False` to the new record, so
the admin-password branch that raises is unreachable after the write). -/

/-- Handler for `POST /api/login` (`main.py` lines 191–214).  `adminPassword` is the
`ADMIN_PASSWORD` environment value. -/
def login (odb : Option DB) (adminPassword : String) (payload : LoginRequest) :
    Except HErr (DB × LoginResponse) :=
  match odb with
  | none => .error storeUnavailable
  | some db =>
    let roll := normRoll payload.roll_number
    let found := db.student.find? (fun s => s.2.roll_number == roll)
    let state :=
      match found with
      | some s => (db, s.2)
      | none =>
        -- Auto-create new student on first login; the handler re-fetches
        -- the inserted document by its id, which is the document itself.
        let stu : Student := ⟨roll, none, false, true, none⟩
        ({ db with student := db.student ++ [(db.nextId, stu)],
                   nextId := db.nextId + 1 }, stu)
    let db' := state.1
    let stu := state.2
    if stu.is_admin then
      if payload.password == some adminPassword then
        .ok (db', ⟨roll, stu.name, "admin", true⟩)
      else
        .error ⟨401, "Admin password required or incorrect"⟩
    else
      .ok (db', ⟨roll, stu.name, "student", false⟩)

/-- Handler for `GET /api/subjects` (`main.py` lines 220–227): `[]` when `db is None`,
otherwise every subject document (via `get_documents`) with its id. -/
def list_subjects (odb : Option DB) : Except HErr (List (Nat × Subject)) :=
  match odb with
  | none => .ok []
  | some db => .ok db.subject

/-- Handler for `POST /api/admin/subjects` (`main.py` lines 230–238). -/
def create_subject (odb : Option DB) (sub : SubjectCreate) :
    Except HErr (DB × (Nat × Subject)) :=
  match odb with
  | none => .error storeUnavailable
  | some db =>
    if (db.subject.find? (fun s => s.2.code == sub.code)).isSome then
      .error ⟨400, "Subject code exists"⟩
    else
      let doc : Subject := ⟨sub.code, sub.acronym, sub.title, sub.syllabus⟩
      .ok ({ db with subject := db.subject ++ [(db.nextId, doc)],
                     nextId := db.nextId + 1 },
           (db.nextId, doc))

/-- Handler for `GET /api/presentations` (`main.py` lines 244–254).  The query filter
fires only when `roll_number` is truthy (`if roll_number:`), so both a
missing parameter and the empty string return every document. -/
def list_presentations (odb : Option DB) (roll_number : Option String) :
    Except HErr (List (Nat × Presentation)) :=
  match odb with
  | none => .ok []
  | some db =>
    match roll_number with
    | none => .ok db.presentation
    | some r =>
      if r.isEmpty then .ok db.presentation
      else
        .ok (db.presentation.filter
          (fun p => p.2.assigned_to == none || p.2.assigned_to == some (normRoll r)))

/-- Handler for `GET /api/presentations/my` (`main.py` lines 257–269): the documents
assigned to the roll, split on `d.get("status")` — exactly `"completed"`
goes to `completed`, everything else (including `"revoked"` and an absent
status) to `upcoming`. -/
def my_presentations (odb : Option DB) (roll_number : String) :
    Except HErr MyPresentations :=
  match odb with
  | none => .ok ⟨[], []⟩
  | some db =>
    let roll := normRoll roll_number
    let docs := db.presentation.filter (fun p => p.2.assigned_to == some roll)
    .ok ⟨docs.filter (fun p => !(p.2.status == some "completed")),
         docs.filter (fun p => p.2.status == some "completed")⟩

/-- Handler for `POST /api/admin/presentations` (`main.py` lines 272–278).  The stored
document is `p.model_dump()` — in particular it has no `status` key. -/
def create_presentation (odb : Option DB) (p : PresentationCreate) :
    Except HErr (DB × (Nat × Presentation)) :=
  match odb with
  | none => .error storeUnavailable
  | some db =>
    let doc : Presentation :=
      ⟨p.subject_code, p.subject_acronym, p.topic, p.assigned_to,
       p.due_date, none, p.submission_link, none⟩
    .ok ({ db with presentation := db.presentation ++ [(db.nextId, doc)],
                   nextId := db.nextId + 1 },
         (db.nextId, doc))

/-- Handler for `PATCH /api/admin/presentations/:id` (`main.py` lines 281–289).
`now` abstracts `datetime.now(timezone.utc)`. -/
def update_presentation_status (odb : Option DB) (now : Nat)
    (presentation_id : Nat) (status : String) :
    Except HErr (DB × (Nat × Presentation)) :=
  match odb with
  | none => .error storeUnavailable
  | some db =>
    match db.presentation.find? (fun p => p.1 == presentation_id) with
    | none => .error ⟨404, "Presentation not found"⟩
    | some hit =>
      let doc := { hit.2 with status := some status, updated_at := some now }
      let pres := db.presentation.map
        (fun q => if q.1 == presentation_id then (q.1, doc) else q)
      .ok ({ db with presentation := pres }, (hit.1, doc))

/-- Handler for `POST /api/admin/assign` (`main.py` lines 292–303): the referential
check on the roll number runs first; only then is the presentation
updated.  `now` abstracts `datetime.now(timezone.utc)`. -/
def assign_topic (odb : Option DB) (now : Nat) (payload : AssignTopicRequest) :
    Except HErr (DB × (Nat × Presentation)) :=
  match odb with
  | none => .error storeUnavailable
  | some db =>
    let roll := normRoll payload.roll_number
    if (db.student.find? (fun s => s.2.roll_number == roll)).isSome then
      match db.presentation.find? (fun p => p.1 == payload.presentation_id) with
      | none => .error ⟨404, "Presentation not found"⟩
      | some hit =>
        let doc := { hit.2 with assigned_to := some roll, updated_at := some now }
        let pres := db.presentation.map
          (fun q => if q.1 == payload.presentation_id then (q.1, doc) else q)
        .ok ({ db with presentation := pres }, (hit.1, doc))
    else
      .error ⟨404, "Student not found"⟩

/-- Handler for `POST /api/admin/messages` (`main.py` lines 309–315). -/
def create_message (odb : Option DB) (msg : MessageCreate) :
    Except HErr (DB × (Nat × Message)) :=
  match odb with
  | none => .error storeUnavailable
  | some db =>
    let doc : Message := ⟨msg.type, msg.title, msg.body, msg.created_by⟩
    .ok ({ db with message := db.message ++ [(db.nextId, doc)],
                   nextId := db.nextId + 1 },
         (db.nextId, doc))

/-- Handler for `GET /api/messages` (`main.py` lines 318–325), sorted newest-first.
Modelled from the spec: `create_document` stamps `created_at` at insert
time, so creation order follows the monotone ids and the
`sort("created_at", -1)` is descending id order. -/
def list_messages (odb : Option DB) : Except HErr (List (Nat × Message)) :=
  match odb with
  | none => .ok []
  | some db => .ok (db.message.insertionSort (fun a b => b.1 ≤ a.1))

/-- Handler for `DELETE /api/admin/messages/:id` (`main.py` lines 328–334):
`delete_one` removes the first matching document; a deleted count of 0
yields 404. -/
def delete_message (odb : Option DB) (message_id : Nat) :
    Except HErr (DB × DeleteResponse) :=
  match odb with
  | none => .error storeUnavailable
  | some db =>
    if db.message.any (fun m => m.1 == message_id) then
      .ok ({ db with message := db.message.eraseP (fun m => m.1 == message_id) },
           ⟨true⟩)
    else
      .error ⟨404, "Message not found"⟩

/-- Handler for `POST /api/admin/sync` (`main.py` lines 340–351).  `insertRaises`
models whether the `create_document` call raises (its exception is
swallowed by the handler's bare `except: pass`). -/
def sync_presentations (odb : Option DB) (insertRaises : Bool) :
    Option DB × SyncResponse :=
  match odb with
  | none => (none, ⟨false, some "Database not configured"⟩)
  | some db =>
    let meta := db.meta.find? (fun m => m.2.key == "synced")
    if (meta.map (fun m => m.2.value == "true")).getD false then
      (some db, ⟨true, some "Already synced"⟩)
    else
      let db' :=
        if insertRaises then db
        else { db with meta := db.meta ++ [(db.nextId, ⟨"synced", "true"⟩)],
                       nextId := db.nextId + 1 }
      (some db', ⟨true, none⟩)

/-- Number of stored students carrying a given roll number. -/
def countStudents (db : DB) (roll : String) : Nat :=
  (db.student.filter (fun s => s.2.roll_number == roll)).length


/-! ## Concrete fixtures used by the witnesses -/

/-- A store holding one seeded subject. -/
def dbSubj : DB :=
  { DB.empty with
    subject := [(0, ⟨"CS101", "CS", "Computer Science Basics",
      some ["Intro to CS", "Algorithms", "Data Structures"]⟩)],
    nextId := 1 }

/-- A store holding the seeded `ADMIN` account. -/
def dbAdmin : DB :=
  { DB.empty with
    student := [(0, ⟨"ADMIN", some "Administrator", true, true, none⟩)],
    nextId := 1 }

/-- Three presentations assigned to roll `A1`, one per status. -/
def dbPres : DB :=
  { DB.empty with
    presentation :=
      [(0, ⟨"CS101", "CS", "Sorting Algorithms", some "A1", none,
        some "upcoming", none, none⟩),
       (1, ⟨"CS101", "CS", "Big-O Notation", some "A1", none,
        some "completed", none, none⟩),
       (2, ⟨"CS101", "CS", "Hash Tables", some "A1", none,
        some "revoked", none, none⟩)],
    nextId := 3 }

/-- A store holding two messages. -/
def dbMsg : DB :=
  { DB.empty with
    message := [(0, ⟨"message", "Welcome", "First day", none⟩),
                (1, ⟨"alert", "Exam", "Next week", none⟩)],
    nextId := 2 }

/-! ## Claim theorems -/

/-- Claim C2, as stated, is false: with no store configured,
`GET /api/subjects` does not return a 503 service-unavailable response —
it short-circuits to an HTTP 200 response carrying the empty list
(`main.py` lines 222–223), so not every handler answers 503. -/
theorem list_subjects_no_store_is_ok :
    list_subjects none = Except.ok [] ∧ (list_subjects none).isOk = true :=
  ⟨rfl, rfl⟩

/-- Claim C2 (amended): every `/api` handler checks the missing store
connection before performing any store operation and returns without
crashing — the handlers guarded by `require_db` answer the 503
`storeUnavailable` error, while the read handlers and `sync` answer a
degraded 200 response (empty list, empty partition, or `synced=false`). -/
theorem handlers_check_store_before_use
    (ap : String) (lp : LoginRequest) (sub : SubjectCreate)
    (q : Option String) (rn : String) (pc : PresentationCreate)
    (now pid : Nat) (st : String) (ar : AssignTopicRequest)
    (mc : MessageCreate) (mid : Nat) (b : Bool) :
    login none ap lp = .error storeUnavailable ∧
    list_subjects none = .ok [] ∧
    create_subject none sub = .error storeUnavailable ∧
    list_presentations none q = .ok [] ∧
    my_presentations none rn = .ok ⟨[], []⟩ ∧
    create_presentation none pc = .error storeUnavailable ∧
    update_presentation_status none now pid st = .error storeUnavailable ∧
    assign_topic none now ar = .error storeUnavailable ∧
    create_message none mc = .error storeUnavailable ∧
    list_messages none = .ok [] ∧
    delete_message none mid = .error storeUnavailable ∧
    sync_presentations none b = (none, ⟨false, some "Database not configured"⟩) :=
  ⟨rfl, rfl, rfl, rfl, rfl, rfl, rfl, rfl, rfl, rfl, rfl, rfl⟩

/-- Claim C3: when the trimmed, uppercased roll number matches no stored
student, `POST /api/admin/assign` fails with 404 `Student not found`; the
referential check runs before the presentation update, so the error
response leaves every presentation untouched (an `Except.error` result
carries no post-state: the store is as it was). -/
theorem assign_topic_unknown_roll (db : DB) (now : Nat)
    (payload : AssignTopicRequest)
    (h : ∀ s ∈ db.student, s.2.roll_number ≠ normRoll payload.roll_number) :
    assign_topic (some db) now payload = .error ⟨404, "Student not found"⟩ := by
  have hf : db.student.find?
      (fun s => s.2.roll_number == normRoll payload.roll_number) = none := by
    rw [List.find?_eq_none]
    intro x hx
    simp [h x hx]
  simp [assign_topic, hf]

/-- Witness for C3 on a concrete store. -/
theorem assign_topic_unknown_roll_witness :
    (∀ s ∈ dbPres.student, s.2.roll_number ≠ normRoll "zz9") ∧
    assign_topic (some dbPres) 7 ⟨0, "zz9"⟩ =
      .error ⟨404, "Student not found"⟩ :=
  ⟨by decide, assign_topic_unknown_roll dbPres 7 ⟨0, "zz9"⟩ (by decide)⟩

/-- Claim C6: creating a subject whose code equals a stored subject's code
fails with 400 `Subject code exists`; the duplicate check precedes the
insert, and the error response carries no post-state, so no record is
inserted. -/
theorem create_subject_duplicate_code (db : DB) (sub : SubjectCreate)
    (h : ∃ s ∈ db.subject, s.2.code = sub.code) :
    create_subject (some db) sub = .error ⟨400, "Subject code exists"⟩ := by
  obtain ⟨s, hs, hcode⟩ := h
  have hf : (db.subject.find? (fun t => t.2.code == sub.code)).isSome := by
    rw [List.find?_isSome]
    exact ⟨s, hs, by simp [hcode]⟩
  simp [create_subject, hf]

/-- Witness for C6 on a concrete store. -/
theorem create_subject_duplicate_code_witness :
    (∃ s ∈ dbSubj.subject, s.2.code = "CS101") ∧
    create_subject (some dbSubj) ⟨"CS101", "X", "Y", some []⟩ =
      .error ⟨400, "Subject code exists"⟩ :=
  ⟨by decide,
   create_subject_duplicate_code dbSubj ⟨"CS101", "X", "Y", some []⟩ (by decide)⟩

/-- Claim C10: when the `meta` insert raises, `POST /api/admin/sync` still
reports `synced=true` (the bare `except: pass` swallows the error) while
the post-state is the unchanged store, which by the hypothesis holds no
`synced` flag — so a `synced=true` response does not guarantee the flag
was persisted. -/
theorem sync_insert_error_swallowed (db : DB)
    (h : ∀ m ∈ db.meta, m.2.key ≠ "synced") :
    sync_presentations (some db) true = (some db, ⟨true, none⟩) := by
  have hf : db.meta.find? (fun m => m.2.key == "synced") = none := by
    rw [List.find?_eq_none]
    intro x hx
    simp [h x hx]
  simp [sync_presentations, hf]

/-- Witness for C10 on the empty store. -/
theorem sync_insert_error_swallowed_witness :
    (∀ m ∈ DB.empty.meta, m.2.key ≠ "synced") ∧
    sync_presentations (some DB.empty) true = (some DB.empty, ⟨true, none⟩) :=
  ⟨by decide, sync_insert_error_swallowed DB.empty (by decide)⟩

/-- Claim C8: when the resolved student record has `is_admin=true` (the
auto-created record never is, so a resolved admin is a pre-existing one
found by `find_one`), a password differing from the configured admin
secret fails with 401, and the matching password yields a response with
role `"admin"` and the store unchanged. -/
theorem login_admin_password_gate (db : DB) (ap : String)
    (payload : LoginRequest) (i : Nat) (stu : Student)
    (hfind : db.student.find?
      (fun s => s.2.roll_number == normRoll payload.roll_number) = some (i, stu))
    (hadm : stu.is_admin = true) :
    (payload.password ≠ some ap →
      login (some db) ap payload =
        .error ⟨401, "Admin password required or incorrect"⟩) ∧
    (payload.password = some ap →
      login (some db) ap payload =
        .ok (db, ⟨normRoll payload.roll_number, stu.name, "admin", true⟩)) := by
  constructor <;> intro hp <;> simp [login, hfind, hadm, hp]

/-- Witness for C8 on the seeded admin store, exercising the 401 branch. -/
theorem login_admin_password_gate_witness :
    (dbAdmin.student.find?
        (fun s => s.2.roll_number == normRoll " admin ") =
      some (0, ⟨"ADMIN", some "Administrator", true, true, none⟩)) ∧
    (⟨" admin ", some "wrong"⟩ : LoginRequest).password ≠ some "admin123" ∧
    login (some dbAdmin) "admin123" ⟨" admin ", some "wrong"⟩ =
      .error ⟨401, "Admin password required or incorrect"⟩ :=
  ⟨by decide, by decide,
   (login_admin_password_gate dbAdmin "admin123" ⟨" admin ", some "wrong"⟩ 0
      ⟨"ADMIN", some "Administrator", true, true, none⟩
      (by decide) (by decide)).1 (by decide)⟩

/-- Claim C1: a first login with a roll number (normalized) absent from
the student collection auto-creates exactly one student record, with
`is_admin=false` and `is_active=true`; a second login with the same roll
number finds that record and creates no further one, so exactly one
student with that roll number exists after both calls. -/
theorem login_twice_creates_one_student (db : DB) (ap rn : String)
    (pw pw' : Option String)
    (h : countStudents db (normRoll rn) = 0) :
    ∃ db₁ r₁ db₂ r₂,
      login (some db) ap ⟨rn, pw⟩ = .ok (db₁, r₁) ∧
      (db.nextId, (⟨normRoll rn, none, false, true, none⟩ : Student)) ∈
        db₁.student ∧
      countStudents db₁ (normRoll rn) = 1 ∧
      login (some db₁) ap ⟨rn, pw'⟩ = .ok (db₂, r₂) ∧
      countStudents db₂ (normRoll rn) = 1 := by
  have hnil : db.student.filter
      (fun s => s.2.roll_number == normRoll rn) = [] := by
    simpa [countStudents, List.length_eq_zero] using h
  have hnone : db.student.find?
      (fun s => s.2.roll_number == normRoll rn) = none := by
    rw [List.find?_eq_none]
    intro x hx
    simpa using List.filter_eq_nil_iff.1 hnil x hx
  refine ⟨{ db with
      student := db.student ++ [(db.nextId, ⟨normRoll rn, none, false, true, none⟩)],
      nextId := db.nextId + 1 },
    ⟨normRoll rn, none, "student", false⟩,
    { db with
      student := db.student ++ [(db.nextId, ⟨normRoll rn, none, false, true, none⟩)],
      nextId := db.nextId + 1 },
    ⟨normRoll rn, none, "student", false⟩,
    ?_, ?_, ?_, ?_, ?_⟩
  · simp [login, hnone]
  · simp
  · simp [countStudents, List.filter_append, hnil]
  · have hfind : (db.student ++
        [(db.nextId, (⟨normRoll rn, none, false, true, none⟩ : Student))]).find?
        (fun s => s.2.roll_number == normRoll rn) =
        some (db.nextId, ⟨normRoll rn, none, false, true, none⟩) := by
      simp [List.find?_append, hnone]
    simp [login, hfind]
  · simp [countStudents, List.filter_append, hnil]

/-- Witness for C1: two logins with the fresh roll `" a1 "` on the empty
store. -/
theorem login_twice_creates_one_student_witness :
    countStudents DB.empty (normRoll " a1 ") = 0 ∧
    (∃ db₁ r₁ db₂ r₂,
      login (some DB.empty) "admin123" ⟨" a1 ", none⟩ = .ok (db₁, r₁) ∧
      (DB.empty.nextId,
        (⟨normRoll " a1 ", none, false, true, none⟩ : Student)) ∈ db₁.student ∧
      countStudents db₁ (normRoll " a1 ") = 1 ∧
      login (some db₁) "admin123" ⟨" a1 ", some "pw"⟩ = .ok (db₂, r₂) ∧
      countStudents db₂ (normRoll " a1 ") = 1) :=
  ⟨by decide,
   login_twice_creates_one_student DB.empty "admin123" " a1 " none (some "pw")
     (by decide)⟩

/-- Claim C4: every stored presentation assigned to the queried roll
number appears in exactly one of the `upcoming` and `completed` lists of
`GET /api/presentations/my`, decided by whether its status field equals
`"completed"`. -/
theorem my_presentations_partition (db : DB) (rn : String)
    (p : Nat × Presentation) (hp : p ∈ db.presentation)
    (ha : p.2.assigned_to = some (normRoll rn)) :
    ∃ res, my_presentations (some db) rn = .ok res ∧
      ((p.2.status = some "completed" ∧ p ∈ res.completed ∧ p ∉ res.upcoming) ∨
       (p.2.status ≠ some "completed" ∧ p ∈ res.upcoming ∧ p ∉ res.completed)) := by
  refine ⟨_, rfl, ?_⟩
  by_cases hst : p.2.status = some "completed"
  · exact .inl ⟨hst, by simp [List.mem_filter, hp, ha, hst],
      by simp [List.mem_filter, hst]⟩
  · exact .inr ⟨hst, by simp [List.mem_filter, hp, ha, hst],
      by simp [List.mem_filter, hst]⟩

/-- Witness for C4: a completed presentation of the fixture store lands in
`completed` only. -/
theorem my_presentations_partition_witness :
    ((1, (⟨"CS101", "CS", "Big-O Notation", some "A1", none, some "completed",
        none, none⟩ : Presentation)) ∈ dbPres.presentation) ∧
    (⟨"CS101", "CS", "Big-O Notation", some "A1", none, some "completed",
        none, none⟩ : Presentation).assigned_to = some (normRoll " a1 ") ∧
    (∃ res, my_presentations (some dbPres) " a1 " = .ok res ∧
      (((⟨"CS101", "CS", "Big-O Notation", some "A1", none, some "completed",
          none, none⟩ : Presentation).status = some "completed" ∧
        (1, (⟨"CS101", "CS", "Big-O Notation", some "A1", none, some "completed",
          none, none⟩ : Presentation)) ∈ res.completed ∧
        (1, (⟨"CS101", "CS", "Big-O Notation", some "A1", none, some "completed",
          none, none⟩ : Presentation)) ∉ res.upcoming) ∨
       ((⟨"CS101", "CS", "Big-O Notation", some "A1", none, some "completed",
          none, none⟩ : Presentation).status ≠ some "completed" ∧
        (1, (⟨"CS101", "CS", "Big-O Notation", some "A1", none, some "completed",
          none, none⟩ : Presentation)) ∈ res.upcoming ∧
        (1, (⟨"CS101", "CS", "Big-O Notation", some "A1", none, some "completed",
          none, none⟩ : Presentation)) ∉ res.completed))) :=
  ⟨by decide, by decide,
   my_presentations_partition dbPres " a1 "
     (1, ⟨"CS101", "CS", "Big-O Notation", some "A1", none, some "completed",
       none, none⟩) (by decide) (by decide)⟩

/-- Claim C9: in `GET /api/presentations/my`, an assigned presentation
whose status is anything other than `"completed"` — in particular
`"revoked"` — is placed in `upcoming` and kept out of `completed`, and
every entry of `completed` has status exactly `"completed"`. -/
theorem my_presentations_noncompleted_upcoming (db : DB) (rn : String)
    (p : Nat × Presentation) (hp : p ∈ db.presentation)
    (ha : p.2.assigned_to = some (normRoll rn))
    (hst : p.2.status ≠ some "completed") :
    ∃ res, my_presentations (some db) rn = .ok res ∧
      p ∈ res.upcoming ∧ p ∉ res.completed ∧
      ∀ q ∈ res.completed, q.2.status = some "completed" := by
  refine ⟨_, rfl, ?_, ?_, ?_⟩
  · simp [List.mem_filter, hp, ha, hst]
  · simp [List.mem_filter, hst]
  · intro q hq
    simpa using (List.mem_filter.1 hq).2

/-- Witness for C9: the revoked presentation of the fixture store is
listed under `upcoming`. -/
theorem my_presentations_noncompleted_upcoming_witness :
    ((2, (⟨"CS101", "CS", "Hash Tables", some "A1", none, some "revoked",
        none, none⟩ : Presentation)) ∈ dbPres.presentation) ∧
    (⟨"CS101", "CS", "Hash Tables", some "A1", none, some "revoked",
        none, none⟩ : Presentation).assigned_to = some (normRoll "a1") ∧
    (⟨"CS101", "CS", "Hash Tables", some "A1", none, some "revoked",
        none, none⟩ : Presentation).status ≠ some "completed" ∧
    (∃ res, my_presentations (some dbPres) "a1" = .ok res ∧
      (2, (⟨"CS101", "CS", "Hash Tables", some "A1", none, some "revoked",
        none, none⟩ : Presentation)) ∈ res.upcoming ∧
      (2, (⟨"CS101", "CS", "Hash Tables", some "A1", none, some "revoked",
        none, none⟩ : Presentation)) ∉ res.completed ∧
      ∀ q ∈ res.completed, q.2.status = some "completed") :=
  ⟨by decide, by decide, by decide,
   my_presentations_noncompleted_upcoming dbPres "a1"
     (2, ⟨"CS101", "CS", "Hash Tables", some "A1", none, some "revoked",
       none, none⟩) (by decide) (by decide) (by decide)⟩

/-- Claim C5: starting from a store whose `synced` metas (if any) already
hold `"true"` — in particular from a store with no `synced` flag — two
consecutive `POST /api/admin/sync` calls with the store configured both
report `synced=true`, the second call leaves the store exactly as the
first left it (idempotence), and the resulting store holds a `meta`
record with key `"synced"` and value `"true"`. -/
theorem sync_twice_idempotent (db : DB)
    (h : ∀ m ∈ db.meta, m.2.key = "synced" → m.2.value = "true") :
    ∃ db₁ r₁ r₂,
      sync_presentations (some db) false = (some db₁, r₁) ∧ r₁.synced = true ∧
      sync_presentations (some db₁) false = (some db₁, r₂) ∧ r₂.synced = true ∧
      ∃ m ∈ db₁.meta, m.2.key = "synced" ∧ m.2.value = "true" := by
  rcases hf : db.meta.find? (fun m => m.2.key == "synced") with _ | m
  · -- No synced flag yet: the first call inserts it.
    refine ⟨{ db with
        meta := db.meta ++ [(db.nextId, ⟨"synced", "true"⟩)],
        nextId := db.nextId + 1 },
      ⟨true, none⟩, ⟨true, some "Already synced"⟩,
      ?_, rfl, ?_, rfl, ?_⟩
    · simp [sync_presentations, hf]
    · have hf₁ : (db.meta ++ [(db.nextId, (⟨"synced", "true"⟩ : Meta))]).find?
          (fun m => m.2.key == "synced") =
          some (db.nextId, ⟨"synced", "true"⟩) := by
        simp [List.find?_append, hf]
      simp [sync_presentations, hf₁]
    · exact ⟨(db.nextId, ⟨"synced", "true"⟩), by simp, rfl, rfl⟩
  · -- A synced flag exists; by the hypothesis its value is "true".
    have hmem := List.mem_of_find?_eq_some hf
    have hkey : m.2.key = "synced" := by
      simpa using List.find?_some hf
    have hval : m.2.value = "true" := h m hmem hkey
    refine ⟨db, ⟨true, some "Already synced"⟩, ⟨true, some "Already synced"⟩,
      ?_, rfl, ?_, rfl, ⟨m, hmem, hkey, hval⟩⟩
    · simp [sync_presentations, hf, hval]
    · simp [sync_presentations, hf, hval]

/-- Witness for C5 on the empty store. -/
theorem sync_twice_idempotent_witness :
    (∀ m ∈ DB.empty.meta, m.2.key = "synced" → m.2.value = "true") ∧
    (∃ db₁ r₁ r₂,
      sync_presentations (some DB.empty) false = (some db₁, r₁) ∧
      r₁.synced = true ∧
      sync_presentations (some db₁) false = (some db₁, r₂) ∧
      r₂.synced = true ∧
      ∃ m ∈ db₁.meta, m.2.key = "synced" ∧ m.2.value = "true") :=
  ⟨by decide, sync_twice_idempotent DB.empty (by decide)⟩

/-- Helper: erasing the document with a given id from a collection whose
ids are pairwise distinct leaves no document with that id, provided one
was present. -/
theorem eraseP_key_not_mem {α : Type} (mid : Nat) :
    ∀ l : List (Nat × α), (l.map Prod.fst).Nodup →
      ∀ q ∈ l.eraseP (fun m => m.1 == mid), q.1 ≠ mid := by
  intro l
  induction l with
  | nil => simp
  | cons a l ih =>
    intro hnodup q hq
    rcases List.nodup_cons.1 hnodup with ⟨hhead, htail⟩
    by_cases hid : a.1 = mid
    · rw [List.eraseP_cons_of_pos (by simp [hid])] at hq
      intro hqmid
      exact hhead (by rw [hid, ← hqmid]; exact List.mem_map_of_mem Prod.fst hq)
    · rw [List.eraseP_cons_of_neg (by simp [hid])] at hq
      rcases List.mem_cons.1 hq with rfl | hq'
      · exact hid
      · exact ih htail q hq'

/-- Claim C7: deleting a message id that matches no stored message fails
with 404 `Message not found`; deleting a stored id (ids are store-unique)
answers `{deleted: true}` and removes the document, so no message with
that id appears in a subsequent `GET /api/messages` listing. -/
theorem delete_message_found_and_not_found (db : DB) (mid : Nat)
    (hnodup : (db.message.map Prod.fst).Nodup) :
    ((∀ m ∈ db.message, m.1 ≠ mid) →
      delete_message (some db) mid = .error ⟨404, "Message not found"⟩) ∧
    (∀ m ∈ db.message, m.1 = mid →
      ∃ db' msgs, delete_message (some db) mid = .ok (db', ⟨true⟩) ∧
        list_messages (some db') = .ok msgs ∧ ∀ q ∈ msgs, q.1 ≠ mid) := by
  constructor
  · intro h
    have hany : db.message.any (fun m => m.1 == mid) = false := by
      rw [List.any_eq_false]
      intro x hx
      simp [h x hx]
    simp [delete_message, hany]
  · intro m hm hmid
    have hany : db.message.any (fun q => q.1 == mid) = true := by
      rw [List.any_eq_true]
      exact ⟨m, hm, by simp [hmid]⟩
    refine ⟨{ db with message := db.message.eraseP (fun q => q.1 == mid) }, _,
      by simp [delete_message, hany], rfl, ?_⟩
    intro q hq
    have hq' : q ∈ db.message.eraseP (fun q => q.1 == mid) := by
      simpa [list_messages] using (List.mem_insertionSort _).1 hq
    exact eraseP_key_not_mem mid db.message hnodup q hq'

/-- Witness for C7: deleting message id 0 of the fixture store removes it
from the listing, and the hypotheses hold concretely. -/
theorem delete_message_found_and_not_found_witness :
    ((dbMsg.message.map Prod.fst).Nodup) ∧
    ((0, (⟨"message", "Welcome", "First day", none⟩ : Message)) ∈ dbMsg.message) ∧
    (∃ db' msgs, delete_message (some dbMsg) 0 = .ok (db', ⟨true⟩) ∧
      list_messages (some db') = .ok msgs ∧ ∀ q ∈ msgs, q.1 ≠ 0) :=
  ⟨by decide, by decide,
   (delete_message_found_and_not_found dbMsg 0 (by decide)).2
     (0, ⟨"message", "Welcome", "First day", none⟩) (by decide) (by decide)⟩

end ClassCom
